import Mathlib

/-!
Verification development for the mercury-auth refresh-token path.

Shallow embedding of `src/src/domain/strategies/refresh-token.strategy.ts`
and the module wiring in `src/unnamed/part_000` (AuthModule.forRootAsync).
Injected collaborators of the strategy (the token codec
`TokenService.decodeRefreshToken`, the user directory
`AuthRepository.getAuthUserByUsername`) are passed as explicit function
parameters, mirroring constructor injection in the source. Time is passed
explicitly: `nowMs` is the current Unix time in milliseconds, as produced
by `moment()` in the source; JWT `exp`/`iat` are Unix seconds.
-/

set_option autoImplicit false

namespace MercuryAuth

/-- The token transfer mode enum (`AuthTransferTokenMethod` in the source):
`cookie` / `bearer` / `both`. -/
inductive AuthTransferTokenMethod where
  | COOKIE_ONLY
  | BEARER_ONLY
  | BOTH
deriving DecidableEq, Repr

/-- JWT settings of `IAuthDefinitions` (`jwt.secret`, `jwt.expiresIn`,
`jwt.refreshTokenExpiresIn`); TTLs modelled in seconds. -/
structure JwtSettings where
  secret : String
  expiresIn : Int
  refreshTokenExpiresIn : Int
deriving DecidableEq, Repr

/-- The slice of `IAuthDefinitions` the refresh path reads. -/
structure IAuthDefinitions where
  jwt : JwtSettings
  redactedFields : List String
  transferTokenMethod : AuthTransferTokenMethod
deriving DecidableEq, Repr

/-- A user record, modelled as a field-name/value association list
(a shallow embedding of a TS object). -/
abbrev AuthUser := List (String × String)

/-- An inbound HTTP request: its cookies and its headers.
Header names are stored normalized to lower case, as the Node HTTP
adaptors (fastify/express) normalize them. -/
structure IHttpRequest where
  cookies : List (String × String)
  headers : List (String × String)
deriving DecidableEq, Repr

/-- The decoded JWT payload (`IJwtPayload`): subject username, issued-at
and expiry, both in Unix seconds. -/
structure IJwtPayload where
  username : String
  iat : Int
  exp : Int
deriving DecidableEq, Repr

/-- Modelled from the spec: `getRequestCookie` (helper not under `src/`) —
TokenTransport reads the named cookie from the inbound request. -/
def getRequestCookie (request : IHttpRequest) (name : String) : Option String :=
  request.cookies.lookup name

/-- Modelled from the spec: `getRequestHeader` (helper not under `src/`) —
TokenTransport reads the named (lower-cased) header from the request. -/
def getRequestHeader (request : IHttpRequest) (name : String) : Option String :=
  request.headers.lookup name

/-- The `(... as string) || null` coercion in both extractors: a falsy
value (absent, or the empty string) becomes `null`. -/
def falsyToNone : Option String → Option String
  | some s => if s = "" then none else some s
  | none => none

/-- `cookieExtractor` from the source: in `BEARER_ONLY` mode returns
`null`; otherwise reads the `RefreshToken` cookie, coercing falsy to
`null`. -/
def cookieExtractor (transferTokenMethod : AuthTransferTokenMethod)
    (request : IHttpRequest) : Option String :=
  if transferTokenMethod = AuthTransferTokenMethod.BEARER_ONLY then
    none
  else
    falsyToNone (getRequestCookie request "RefreshToken")

/-- `refreshTokenHeaderExtractor` from the source: in `COOKIE_ONLY` mode
returns `null`; otherwise reads the `refresh-token` header, coercing
falsy to `null`. -/
def refreshTokenHeaderExtractor (transferTokenMethod : AuthTransferTokenMethod)
    (request : IHttpRequest) : Option String :=
  if transferTokenMethod = AuthTransferTokenMethod.COOKIE_ONLY then
    none
  else
    falsyToNone (getRequestHeader request "refresh-token")

/-- `ExtractJwt.fromExtractors`: try each extractor in order, the first
non-null result wins. -/
def fromExtractors (extractors : List (IHttpRequest → Option String))
    (request : IHttpRequest) : Option String :=
  match extractors with
  | [] => none
  | e :: rest =>
    match e request with
    | some t => some t
    | none => fromExtractors rest request

/-- The strategy's `jwtFromRequest` field, as assigned in the constructor:
`fromExtractors [cookieExtractor mode, refreshTokenHeaderExtractor mode]`. -/
def jwtFromRequest (transferTokenMethod : AuthTransferTokenMethod)
    (request : IHttpRequest) : Option String :=
  fromExtractors
    [cookieExtractor transferTokenMethod,
     refreshTokenHeaderExtractor transferTokenMethod]
    request

/-- Modelled from the spec: `hideRedactedFields` (FieldRedactor, not under
`src/`) — "given a user-shaped record and a set of field names, returns a
shallow copy with those named fields omitted"; an absent user propagates
as absent. -/
def hideRedactedFields (redactedFields : List String)
    (user : Option AuthUser) : Option AuthUser :=
  user.map (fun u => u.filter (fun kv => !(redactedFields.contains kv.1)))

/-- `HttpStatus.UNAUTHORIZED`. -/
def UNAUTHORIZED : Nat := 401

/-- The two terminal outcomes of `authenticate`: `this.fail(status)` or
`this.success(user)`. -/
inductive AuthOutcome where
  | fail (status : Nat)
  | success (user : AuthUser)
deriving DecidableEq, Repr

namespace RefreshTokenStrategy

/-- `RefreshTokenStrategy.validate` from the source: reject (undefined)
when `moment().isAfter(moment(payload.exp * 1000))`, i.e. when
`payload.exp * 1000 < nowMs`; otherwise look the user up by the payload's
username and redact the configured fields. -/
def validate (authDefinitions : IAuthDefinitions)
    (getAuthUserByUsername : String → Option AuthUser)
    (nowMs : Int) (payload : IJwtPayload) : Option AuthUser :=
  if payload.exp * 1000 < nowMs then
    none
  else
    hideRedactedFields authDefinitions.redactedFields
      (getAuthUserByUsername payload.username)

/-- `RefreshTokenStrategy.authenticate` from the source:
extract the token, decode it with `decodeRefreshToken` when present,
validate the payload when decoding succeeded; `fail(401)` when payload or
user is missing, `success(user)` otherwise. -/
def authenticate (authDefinitions : IAuthDefinitions)
    (decodeRefreshToken : String → Option IJwtPayload)
    (getAuthUserByUsername : String → Option AuthUser)
    (nowMs : Int) (req : IHttpRequest) : AuthOutcome :=
  let token := jwtFromRequest authDefinitions.transferTokenMethod req
  let jwtPayload := token.bind decodeRefreshToken
  let user := jwtPayload.bind (validate authDefinitions getAuthUserByUsername nowMs)
  match jwtPayload, user with
  | some _, some u => AuthOutcome.success u
  | _, _ => AuthOutcome.fail UNAUTHORIZED

end RefreshTokenStrategy

/-- A signed token, for the codec model: the payload together with a
symmetric signature over it. -/
structure SignedToken where
  payload : IJwtPayload
  sig : String × IJwtPayload
deriving DecidableEq, Repr

/-- Modelled from the spec: the symmetric signature scheme of the
TokenCodec (TokenService is not under `src/`) — a MAC keyed by the
configured secret, modelled as the collision-free pairing of secret and
payload. -/
def signature (secret : String) (p : IJwtPayload) : String × IJwtPayload :=
  (secret, p)

/-- Modelled from the spec: `issueAccessToken(username)` — "encode a
JwtPayload with `exp = now + configured_ttl`, signed with the configured
secret"; the signer is configured with `definitions.jwt.secret` and
`definitions.jwt.expiresIn` in `AuthModule.forRootAsync`
(src/unnamed/part_000, JwtModule.registerAsync). -/
def issueAccessToken (authDefinitions : IAuthDefinitions)
    (issueTime : Int) (username : String) : SignedToken :=
  let p : IJwtPayload :=
    { username := username
      iat := issueTime
      exp := issueTime + authDefinitions.jwt.expiresIn }
  { payload := p, sig := signature authDefinitions.jwt.secret p }

/-- Modelled from the spec: `decodeAccessToken(token)` — "verify
signature; on signature failure or malformed structure, returns invalid". -/
def decodeAccessToken (authDefinitions : IAuthDefinitions)
    (t : SignedToken) : Option IJwtPayload :=
  if t.sig = signature authDefinitions.jwt.secret t.payload then
    some t.payload
  else
    none

/-! Concrete scenario used by witnesses and counterexamples. -/

/-- Example JWT settings. -/
def exJwt : JwtSettings :=
  { secret := "secret-key", expiresIn := 3600, refreshTokenExpiresIn := 86400 }

/-- Example auth definitions: redact `password`, transfer mode `both`. -/
def exDefs : IAuthDefinitions :=
  { jwt := exJwt
    redactedFields := ["password"]
    transferTokenMethod := AuthTransferTokenMethod.BOTH }

/-- Example directory record for user `alice`. -/
def exUserRecord : AuthUser :=
  [("id", "1"), ("username", "alice"), ("password", "hash")]

/-- Example user directory: only `alice` resolves. -/
def exDirectory : String → Option AuthUser :=
  fun username => if username = "alice" then some exUserRecord else none

/-- Example decoded refresh-token payload: subject `alice`, `exp = 100`
(Unix seconds). -/
def exPayload : IJwtPayload := { username := "alice", iat := 0, exp := 100 }

/-- Example refresh-token codec: only the string `tok` decodes, to
`exPayload`. -/
def exDecode : String → Option IJwtPayload :=
  fun t => if t = "tok" then some exPayload else none

/-- Example request carrying the refresh token in the `RefreshToken`
cookie. -/
def exReq : IHttpRequest :=
  { cookies := [("RefreshToken", "tok")], headers := [] }

/-- Example request carrying the refresh token only in the
`refresh-token` header. -/
def exReqHeader : IHttpRequest :=
  { cookies := [], headers := [("refresh-token", "tok")] }

/-! Helper lemmas shared by the claim theorems. -/

/-- Unfolding of the two-extractor chain: the cookie extractor wins when
non-null, else the header extractor is consulted. -/
theorem jwtFromRequest_eq_match (m : AuthTransferTokenMethod) (req : IHttpRequest) :
    jwtFromRequest m req =
      match cookieExtractor m req with
      | some t => some t
      | none => refreshTokenHeaderExtractor m req := by
  cases hc : cookieExtractor m req <;>
    cases hh : refreshTokenHeaderExtractor m req <;>
      simp [jwtFromRequest, fromExtractors, hc, hh]

/-- Case analysis of `authenticate` in terms of the decode pipeline. -/
theorem authenticate_cases (defs : IAuthDefinitions)
    (decode : String → Option IJwtPayload)
    (dir : String → Option AuthUser) (nowMs : Int) (req : IHttpRequest) :
    RefreshTokenStrategy.authenticate defs decode dir nowMs req =
      match (jwtFromRequest defs.transferTokenMethod req).bind decode with
      | none => AuthOutcome.fail UNAUTHORIZED
      | some p =>
        match RefreshTokenStrategy.validate defs dir nowMs p with
        | none => AuthOutcome.fail UNAUTHORIZED
        | some u => AuthOutcome.success u := by
  unfold RefreshTokenStrategy.authenticate
  cases hp : (jwtFromRequest defs.transferTokenMethod req).bind decode with
  | none => simp [hp]
  | some p =>
    cases hv : RefreshTokenStrategy.validate defs dir nowMs p with
    | none => simp [hp, hv]
    | some u => simp [hp, hv]

/-! Claim theorems. -/

/-- Claim C1 counterexample: at the exact boundary `nowMs = exp * 1000`
(here `exp = 100`, `nowMs = 100000`), so `now ≥ exp * 1000` holds, yet
`RefreshTokenStrategy.validate` does not return `undefined`: it proceeds
to user resolution and returns the redacted user. The source uses
`moment().isAfter(exp * 1000)`, which is strict. -/
theorem c1_boundary_counterexample :
    exPayload.exp * 1000 ≤ (100000 : Int) ∧
    RefreshTokenStrategy.validate exDefs exDirectory 100000 exPayload
      = some [("id", "1"), ("username", "alice")] := by
  constructor
  · decide
  · decide

/-- Claim C1 (amended): expiry on the refresh path is strict at the
millisecond — `validate` returns `undefined` whenever `nowMs > exp * 1000`
and proceeds to user resolution (the redacted directory lookup) whenever
`nowMs ≤ exp * 1000`; in particular a token whose `exp` is one second in
the future is accepted, and one with `exp` strictly in the past is
rejected. -/
theorem c1_strict_expiry (defs : IAuthDefinitions)
    (dir : String → Option AuthUser) (nowMs : Int) (p : IJwtPayload) :
    (p.exp * 1000 < nowMs →
      RefreshTokenStrategy.validate defs dir nowMs p = none) ∧
    (nowMs ≤ p.exp * 1000 →
      RefreshTokenStrategy.validate defs dir nowMs p
        = hideRedactedFields defs.redactedFields (dir p.username)) := by
  constructor
  · intro h
    simp [RefreshTokenStrategy.validate, h]
  · intro h
    simp [RefreshTokenStrategy.validate, not_lt.mpr h]

/-- Claim C1 witness: both arms of `c1_strict_expiry` at concrete inputs
(`exp = 100`; `nowMs = 100001` expired, `nowMs = 99000` still valid). -/
theorem c1_strict_expiry_witness :
    RefreshTokenStrategy.validate exDefs exDirectory 100001 exPayload = none ∧
    RefreshTokenStrategy.validate exDefs exDirectory 99000 exPayload
      = hideRedactedFields exDefs.redactedFields (exDirectory exPayload.username) :=
  ⟨(c1_strict_expiry exDefs exDirectory 100001 exPayload).1 (by decide),
   (c1_strict_expiry exDefs exDirectory 99000 exPayload).2 (by decide)⟩

/-- Claim C2: whenever the extracted token decodes to a payload whose
`exp` instant lies in the past (`exp * 1000 < nowMs`), the request fails
with HTTP 401 for every user directory — `validate` returns `undefined`
without resolving any user, so no directory lookup can influence the
outcome and no success outcome is produced. -/
theorem c2_expired_rejected_before_lookup (defs : IAuthDefinitions)
    (decode : String → Option IJwtPayload) (nowMs : Int)
    (req : IHttpRequest) (tok : String) (p : IJwtPayload)
    (htok : jwtFromRequest defs.transferTokenMethod req = some tok)
    (hdec : decode tok = some p)
    (hexp : p.exp * 1000 < nowMs) :
    ∀ dir : String → Option AuthUser,
      RefreshTokenStrategy.validate defs dir nowMs p = none ∧
      RefreshTokenStrategy.authenticate defs decode dir nowMs req
        = AuthOutcome.fail UNAUTHORIZED := by
  intro dir
  have hv : RefreshTokenStrategy.validate defs dir nowMs p = none := by
    simp [RefreshTokenStrategy.validate, hexp]
  refine ⟨hv, ?_⟩
  rw [authenticate_cases, htok]
  simp [hdec, hv]

/-- Claim C2 witness: the expired example token (`exp = 100`) at
`nowMs = 200000` is rejected 401 with the example directory. -/
theorem c2_witness :
    RefreshTokenStrategy.authenticate exDefs exDecode exDirectory 200000 exReq
      = AuthOutcome.fail UNAUTHORIZED :=
  (c2_expired_rejected_before_lookup exDefs exDecode 200000 exReq "tok" exPayload
    (by decide) (by decide) (by decide) exDirectory).2

/-- Claim C3: extraction obeys the transfer mode. In `COOKIE_ONLY` mode
the header extractor returns null and extraction equals the (falsy-coerced)
`RefreshToken` cookie; in `BEARER_ONLY` mode the cookie extractor returns
null and extraction equals the (falsy-coerced) `refresh-token` header; in
`BOTH` mode the cookie is tried first (a non-empty cookie wins) and the
header is consulted exactly when the cookie channel yields null. -/
theorem c3_transfer_mode_extraction (req : IHttpRequest) :
    (refreshTokenHeaderExtractor AuthTransferTokenMethod.COOKIE_ONLY req = none ∧
     jwtFromRequest AuthTransferTokenMethod.COOKIE_ONLY req
       = falsyToNone (getRequestCookie req "RefreshToken")) ∧
    (cookieExtractor AuthTransferTokenMethod.BEARER_ONLY req = none ∧
     jwtFromRequest AuthTransferTokenMethod.BEARER_ONLY req
       = falsyToNone (getRequestHeader req "refresh-token")) ∧
    (∀ t, cookieExtractor AuthTransferTokenMethod.BOTH req = some t →
       jwtFromRequest AuthTransferTokenMethod.BOTH req = some t) ∧
    (cookieExtractor AuthTransferTokenMethod.BOTH req = none →
       jwtFromRequest AuthTransferTokenMethod.BOTH req
         = refreshTokenHeaderExtractor AuthTransferTokenMethod.BOTH req) := by
  refine ⟨⟨by simp [refreshTokenHeaderExtractor], ?_⟩,
          ⟨by simp [cookieExtractor], ?_⟩, ?_, ?_⟩
  · rw [jwtFromRequest_eq_match]
    simp [refreshTokenHeaderExtractor, cookieExtractor]
    cases falsyToNone (getRequestCookie req "RefreshToken") <;> simp
  · rw [jwtFromRequest_eq_match]
    simp [cookieExtractor, refreshTokenHeaderExtractor]
  · intro t ht
    rw [jwtFromRequest_eq_match, ht]
  · intro hc
    rw [jwtFromRequest_eq_match, hc]

/-- Claim C3 witness: in `BOTH` mode the example cookie request extracts
the cookie token, and a request with no cookie falls through to the
header extractor. -/
theorem c3_witness :
    jwtFromRequest AuthTransferTokenMethod.BOTH exReq = some "tok" ∧
    jwtFromRequest AuthTransferTokenMethod.BOTH exReqHeader
      = refreshTokenHeaderExtractor AuthTransferTokenMethod.BOTH exReqHeader :=
  ⟨(c3_transfer_mode_extraction exReq).2.2.1 "tok" (by decide),
   (c3_transfer_mode_extraction exReqHeader).2.2.2 (by decide)⟩

/-- Claim C4: the refresh strategy reads only the refresh-token channels.
Two requests that agree on the `RefreshToken` cookie and on the
`refresh-token` header — however much their `AccessToken` cookie or
`Authorization` header differ — extract the same token and produce the
same authentication outcome; the only decoder the pipeline applies is
`decodeRefreshToken` (the sole codec parameter of `authenticate`). -/
theorem c4_reads_only_refresh_channels (defs : IAuthDefinitions)
    (decode : String → Option IJwtPayload) (dir : String → Option AuthUser)
    (nowMs : Int) (r1 r2 : IHttpRequest)
    (hc : getRequestCookie r1 "RefreshToken" = getRequestCookie r2 "RefreshToken")
    (hh : getRequestHeader r1 "refresh-token" = getRequestHeader r2 "refresh-token") :
    jwtFromRequest defs.transferTokenMethod r1
      = jwtFromRequest defs.transferTokenMethod r2 ∧
    RefreshTokenStrategy.authenticate defs decode dir nowMs r1
      = RefreshTokenStrategy.authenticate defs decode dir nowMs r2 := by
  have hje : jwtFromRequest defs.transferTokenMethod r1
      = jwtFromRequest defs.transferTokenMethod r2 := by
    rw [jwtFromRequest_eq_match, jwtFromRequest_eq_match,
      cookieExtractor, cookieExtractor, refreshTokenHeaderExtractor,
      refreshTokenHeaderExtractor, hc, hh]
  exact ⟨hje, by rw [authenticate_cases, authenticate_cases, hje]⟩

/-- Claim C4 witness: adding an `AccessToken` cookie and an
`Authorization` header changes nothing about the refresh outcome. -/
theorem c4_witness :
    RefreshTokenStrategy.authenticate exDefs exDecode exDirectory 1000
        { cookies := [("AccessToken", "aaa"), ("RefreshToken", "tok")]
          headers := [("authorization", "Bearer zzz")] }
      = RefreshTokenStrategy.authenticate exDefs exDecode exDirectory 1000 exReq :=
  (c4_reads_only_refresh_channels exDefs exDecode exDirectory 1000
    { cookies := [("AccessToken", "aaa"), ("RefreshToken", "tok")]
      headers := [("authorization", "Bearer zzz")] }
    exReq (by decide) (by decide)).2

/-- Claim C5: `authenticate` has exactly two terminal outcomes — it fails
with HTTP 401 if and only if the extracted token is absent, the decoder
yields no payload, or validation yields no user; in every other case
(the pipeline resolves some user `u`) it succeeds with `u`. All failure
causes collapse to the same 401. -/
theorem c5_terminal_outcomes (defs : IAuthDefinitions)
    (decode : String → Option IJwtPayload) (dir : String → Option AuthUser)
    (nowMs : Int) (req : IHttpRequest) :
    (RefreshTokenStrategy.authenticate defs decode dir nowMs req
        = AuthOutcome.fail UNAUTHORIZED ∨
     ∃ u, RefreshTokenStrategy.authenticate defs decode dir nowMs req
        = AuthOutcome.success u) ∧
    (RefreshTokenStrategy.authenticate defs decode dir nowMs req
        = AuthOutcome.fail UNAUTHORIZED ↔
      jwtFromRequest defs.transferTokenMethod req = none ∨
      (jwtFromRequest defs.transferTokenMethod req).bind decode = none ∨
      ∃ p, (jwtFromRequest defs.transferTokenMethod req).bind decode = some p ∧
        RefreshTokenStrategy.validate defs dir nowMs p = none) ∧
    (∀ u, ((jwtFromRequest defs.transferTokenMethod req).bind decode).bind
          (RefreshTokenStrategy.validate defs dir nowMs) = some u →
      RefreshTokenStrategy.authenticate defs decode dir nowMs req
        = AuthOutcome.success u) := by
  rw [authenticate_cases]
  cases hp : (jwtFromRequest defs.transferTokenMethod req).bind decode with
  | none =>
    refine ⟨Or.inl rfl, ⟨fun _ => Or.inr (Or.inl rfl), fun _ => rfl⟩, ?_⟩
    intro u hu
    simp at hu
  | some p =>
    cases hv : RefreshTokenStrategy.validate defs dir nowMs p with
    | none =>
      refine ⟨Or.inl (by simp [hv]),
        ⟨fun _ => Or.inr (Or.inr ⟨p, rfl, hv⟩), fun _ => by simp [hv]⟩, ?_⟩
      intro u hu
      simp [hv] at hu
    | some u =>
      refine ⟨Or.inr ⟨u, by simp [hv]⟩, ⟨fun h => ?_, ?_⟩, ?_⟩
      · simp [hv] at h
      · rintro (h | h | ⟨q, hq, hqv⟩)
        · simp [h] at hp
        · cases h
        · cases hq
          rw [hqv] at hv
          cases hv
      · intro w hw
        simp [hv] at hw
        simp [hv, hw]

/-- Claim C5 witness: the example request resolves `alice` and succeeds
with her redacted record. -/
theorem c5_witness :
    RefreshTokenStrategy.authenticate exDefs exDecode exDirectory 1000 exReq
      = AuthOutcome.success [("id", "1"), ("username", "alice")] :=
  (c5_terminal_outcomes exDefs exDecode exDirectory 1000 exReq).2.2
    [("id", "1"), ("username", "alice")] (by decide)

/-- Claim C6: any user attached to a success outcome of the refresh path
is the directory record with the configured redacted fields removed — so
no field named in `authDefinitions.redactedFields` occurs in it. -/
theorem c6_redacted_fields_absent (defs : IAuthDefinitions)
    (decode : String → Option IJwtPayload) (dir : String → Option AuthUser)
    (nowMs : Int) (req : IHttpRequest) (u : AuthUser)
    (hs : RefreshTokenStrategy.authenticate defs decode dir nowMs req
      = AuthOutcome.success u) :
    (∃ p rec, (jwtFromRequest defs.transferTokenMethod req).bind decode = some p ∧
      dir p.username = some rec ∧
      u = rec.filter (fun kv => !(defs.redactedFields.contains kv.1))) ∧
    ∀ f ∈ defs.redactedFields, ∀ v, (f, v) ∉ u := by
  rw [authenticate_cases] at hs
  cases hp : (jwtFromRequest defs.transferTokenMethod req).bind decode with
  | none => simp [hp] at hs
  | some p =>
    rw [hp] at hs
    cases hv : RefreshTokenStrategy.validate defs dir nowMs p with
    | none => simp [hv] at hs
    | some w =>
      simp only [hv] at hs
      cases hs
      unfold RefreshTokenStrategy.validate at hv
      by_cases hexp : p.exp * 1000 < nowMs
      · simp [hexp] at hv
      · simp only [hexp, if_false, hideRedactedFields,
          Option.map_eq_some'] at hv
        obtain ⟨rec, hrec, hfil⟩ := hv
        refine ⟨⟨p, rec, rfl, hrec, hfil.symm⟩, ?_⟩
        intro f hf v hmem
        rw [← hfil] at hmem
        have hpred := List.of_mem_filter hmem
        simp only [Bool.not_eq_true', Bool.not_eq_false] at hpred
        have hc : defs.redactedFields.contains f = true := List.elem_iff.mpr hf
        rw [hc] at hpred
        cases hpred

/-- Claim C6 witness: the example success outcome carries `alice` without
her `password` field. -/
theorem c6_witness :
    ("password", "hash") ∉ ([("id", "1"), ("username", "alice")] : AuthUser) :=
  (c6_redacted_fields_absent exDefs exDecode exDirectory 1000 exReq
    [("id", "1"), ("username", "alice")] (by decide)).2 "password" (by decide)
    "hash"

/-- Claim C7: on successful refresh validation the attached user is the
record returned by the directory for the payload's username at validation
time, redacted — not a value reconstructed from the token's claims. -/
theorem c7_live_resolution (defs : IAuthDefinitions)
    (decode : String → Option IJwtPayload) (dir : String → Option AuthUser)
    (nowMs : Int) (req : IHttpRequest) (p : IJwtPayload) (rec : AuthUser)
    (hdec : (jwtFromRequest defs.transferTokenMethod req).bind decode = some p)
    (hexp : nowMs ≤ p.exp * 1000)
    (hdir : dir p.username = some rec) :
    RefreshTokenStrategy.authenticate defs decode dir nowMs req
      = AuthOutcome.success
          (rec.filter (fun kv => !(defs.redactedFields.contains kv.1))) := by
  have hv : RefreshTokenStrategy.validate defs dir nowMs p
      = some (rec.filter (fun kv => !(defs.redactedFields.contains kv.1))) := by
    simp [RefreshTokenStrategy.validate, not_lt.mpr hexp, hideRedactedFields, hdir]
  rw [authenticate_cases, hdec]
  simp [hv]

/-- Claim C7 witness: the example request at `nowMs = 1000` resolves
`alice` live from the directory and redacts `password`. -/
theorem c7_witness :
    RefreshTokenStrategy.authenticate exDefs exDecode exDirectory 1000 exReq
      = AuthOutcome.success
          (exUserRecord.filter
            (fun kv => !(exDefs.redactedFields.contains kv.1))) :=
  c7_live_resolution exDefs exDecode exDirectory 1000 exReq exPayload
    exUserRecord (by decide) (by decide) (by decide)

/-- Claim C8: issuance/decoding round-trip. For every auth definitions
value, username `u` and issue time, decoding a freshly issued access
token (signed with `jwt.secret`, TTL `jwt.expiresIn`, as wired in
`AuthModule.forRootAsync`) yields a payload with subject `u` and
`exp = issueTime + jwt.expiresIn`. -/
theorem c8_issue_decode_roundtrip (defs : IAuthDefinitions)
    (u : String) (issueTime : Int) :
    decodeAccessToken defs (issueAccessToken defs issueTime u)
      = some { username := u, iat := issueTime,
               exp := issueTime + defs.jwt.expiresIn } := by
  simp [decodeAccessToken, issueAccessToken]

/-- Claim C9: an empty-string token equals an absent token. Both
extractors coerce an empty cookie/header value to null; in `BOTH` mode an
empty `RefreshToken` cookie falls through to the `refresh-token` header;
and a request whose refresh channels hold only empty strings (or nothing)
fails 401 for every decoder — so no decode is attempted. -/
theorem c9_empty_token_like_absent (m : AuthTransferTokenMethod)
    (defs : IAuthDefinitions) (decode : String → Option IJwtPayload)
    (dir : String → Option AuthUser) (nowMs : Int) (req : IHttpRequest) :
    (getRequestCookie req "RefreshToken" = some "" →
      cookieExtractor m req = none) ∧
    (getRequestHeader req "refresh-token" = some "" →
      refreshTokenHeaderExtractor m req = none) ∧
    (getRequestCookie req "RefreshToken" = some "" →
      jwtFromRequest AuthTransferTokenMethod.BOTH req
        = refreshTokenHeaderExtractor AuthTransferTokenMethod.BOTH req) ∧
    ((getRequestCookie req "RefreshToken" = none ∨
        getRequestCookie req "RefreshToken" = some "") →
     (getRequestHeader req "refresh-token" = none ∨
        getRequestHeader req "refresh-token" = some "") →
      RefreshTokenStrategy.authenticate defs decode dir nowMs req
        = AuthOutcome.fail UNAUTHORIZED) := by
  have hcook : ∀ m : AuthTransferTokenMethod,
      (getRequestCookie req "RefreshToken" = none ∨
        getRequestCookie req "RefreshToken" = some "") →
      cookieExtractor m req = none := by
    rintro m (h | h) <;> simp [cookieExtractor, h, falsyToNone]
  have hhead : ∀ m : AuthTransferTokenMethod,
      (getRequestHeader req "refresh-token" = none ∨
        getRequestHeader req "refresh-token" = some "") →
      refreshTokenHeaderExtractor m req = none := by
    rintro m (h | h) <;> simp [refreshTokenHeaderExtractor, h, falsyToNone]
  refine ⟨fun h => hcook m (Or.inr h), fun h => hhead m (Or.inr h),
    fun h => ?_, fun hc hh => ?_⟩
  · rw [jwtFromRequest_eq_match, hcook AuthTransferTokenMethod.BOTH (Or.inr h)]
  · have hje : jwtFromRequest defs.transferTokenMethod req = none := by
      rw [jwtFromRequest_eq_match, hcook defs.transferTokenMethod hc,
        hhead defs.transferTokenMethod hh]
    rw [authenticate_cases, hje]
    rfl

/-- Claim C9 witness: a request whose only token material is an empty
`RefreshToken` cookie is rejected 401. -/
theorem c9_witness :
    RefreshTokenStrategy.authenticate exDefs exDecode exDirectory 1000
        { cookies := [("RefreshToken", "")], headers := [] }
      = AuthOutcome.fail UNAUTHORIZED :=
  (c9_empty_token_like_absent AuthTransferTokenMethod.BOTH exDefs exDecode
    exDirectory 1000
    { cookies := [("RefreshToken", "")], headers := [] }).2.2.2
    (Or.inr (by decide)) (Or.inl (by decide))

/-- Claim C10: a valid, unexpired refresh token whose subject no longer
resolves in the directory is rejected 401 — `validate` propagates the
absence and `authenticate` fails, so user deletion invalidates
outstanding refresh tokens. -/
theorem c10_unknown_user_rejected (defs : IAuthDefinitions)
    (decode : String → Option IJwtPayload) (dir : String → Option AuthUser)
    (nowMs : Int) (req : IHttpRequest) (p : IJwtPayload)
    (hdec : (jwtFromRequest defs.transferTokenMethod req).bind decode = some p)
    (hexp : nowMs ≤ p.exp * 1000)
    (hdir : dir p.username = none) :
    RefreshTokenStrategy.validate defs dir nowMs p = none ∧
    RefreshTokenStrategy.authenticate defs decode dir nowMs req
      = AuthOutcome.fail UNAUTHORIZED := by
  have hv : RefreshTokenStrategy.validate defs dir nowMs p = none := by
    simp [RefreshTokenStrategy.validate, not_lt.mpr hexp, hideRedactedFields, hdir]
  refine ⟨hv, ?_⟩
  rw [authenticate_cases, hdec]
  simp [hv]

/-- Claim C10 witness: the example token for `alice` against an empty
directory is rejected 401 at `nowMs = 1000`. -/
theorem c10_witness :
    RefreshTokenStrategy.authenticate exDefs exDecode (fun _ => none) 1000 exReq
      = AuthOutcome.fail UNAUTHORIZED :=
  (c10_unknown_user_rejected exDefs exDecode (fun _ => none) 1000 exReq
    exPayload (by decide) (by decide) rfl).2

end MercuryAuth
